import Mathlib

/-!
# Verification of the mini-SCADA safety core (`src/mini_scada.py`)

A shallow embedding of the safety-relevant parts of `ScadaDashboard`:
the 1 Hz logic tick (`update_seconds_logic`), the E-stop toggle handler
(`handle_estop_toggle`), the bounded event log (`log_event`), the serial
burst parser (`read_serial_data`), and the transport fallback
(`setup_serial`).  Temperatures (Python floats carrying plain decimal
protocol values) are modelled as rationals; Python `int` counters as `ℤ`/`ℕ`;
strings as Lean strings or `List Char` where character-level parsing matters.
UI-only effects (labels, colors, overlay, chart) are outside the model.
-/

namespace MiniScada

/-- Configuration constant `TEMP_THRESHOLD_WARNING = 40.0`. -/
def TEMP_THRESHOLD_WARNING : ℚ := 40

/-- Configuration constant `TEMP_THRESHOLD_CRITICAL = 50.0`. -/
def TEMP_THRESHOLD_CRITICAL : ℚ := 50

/-- Configuration constant `COUNTDOWN_START_SECONDS = 20`. -/
def COUNTDOWN_START_SECONDS : ℤ := 20

/-- Configuration constant `MAX_LOG_ENTRIES = 50`. -/
def MAX_LOG_ENTRIES : ℕ := 50

/-- The value of `self.current_severity` in the dashboard: one of the strings
`"normal"`, `"warning"`, `"danger"`, `"critical"`. -/
inductive Severity
  | normal
  | warning
  | danger
  | critical
deriving DecidableEq, Repr

/-- The safety-relevant mutable fields of `ScadaDashboard`, as initialised in
`__init__` and mutated by `update_seconds_logic`, `handle_estop_toggle` and
`read_serial_data`.  The event-log widget contents are modelled as the list of
logged messages (oldest first), timestamps and colors being presentation. -/
structure ScadaState where
  current_temp : ℚ
  is_estopped : Bool
  is_hard_paused : Bool
  runtime_seconds : ℕ
  countdown_val : ℤ
  is_countdown_active : Bool
  current_severity : Severity
  log : List String
deriving DecidableEq, Repr

/-- Embedding of `ScadaDashboard.log_event`: if the widget already holds at least
`MAX_LOG_ENTRIES` items, `takeItem(0)` removes the oldest entry, then the new
message is appended at the end. -/
def log_event (log : List String) (message : String) : List String :=
  (if MAX_LOG_ENTRIES ≤ log.length then log.drop 1 else log) ++ [message]

/-- Embedding of `ScadaDashboard.handle_estop_toggle`: sets `is_estopped`; on stop it logs
the alarm (and shows the overlay, UI); on reset it logs the resumption, resets
the countdown state and forces `current_severity = "normal"`.  The serial
command write and button repaint are external effects. -/
def handle_estop_toggle (s : ScadaState) (is_stopped : Bool) : ScadaState :=
  if is_stopped then
    { s with is_estopped := true,
             log := log_event s.log "ALARM: E-STOP HALTED" }
  else
    { s with is_estopped := false,
             log := log_event s.log "OP: E-STOP RESUMED",
             countdown_val := COUNTDOWN_START_SECONDS,
             is_countdown_active := false,
             current_severity := Severity.normal }

/-- The `current_temp >= TEMP_THRESHOLD_CRITICAL` arm of
`update_seconds_logic`: activate the countdown if inactive, decrement it
(floored at 0 by the `> 0` guard), then either auto-E-stop on expiry or set
the severity from the remaining value. -/
def tick_critical (s : ScadaState) : ScadaState :=
  let s1 := if s.is_countdown_active then s
            else { s with is_countdown_active := true,
                          countdown_val := COUNTDOWN_START_SECONDS }
  let s2 := if 0 < s1.countdown_val
            then { s1 with countdown_val := s1.countdown_val - 1 } else s1
  if s2.countdown_val ≤ 0 then
    handle_estop_toggle
      { s2 with current_severity := Severity.critical,
                log := log_event s2.log
                  "ALARM: TIMER EXPIRED - INITIATING AUTO E-STOP" }
      true
  else if s2.countdown_val ≤ 5 then
    { s2 with current_severity := Severity.critical }
  else
    { s2 with current_severity := Severity.danger }

/-- Embedding of `ScadaDashboard.update_seconds_logic`, the 1 Hz logic tick: the emergency
early-return (which only refreshes UI text), otherwise the runtime increment
followed by the three-band threshold evaluation. -/
def update_seconds_logic (s : ScadaState) : ScadaState :=
  if s.is_estopped || s.is_hard_paused then s
  else
    let s1 := { s with runtime_seconds := s.runtime_seconds + 1 }
    if TEMP_THRESHOLD_CRITICAL ≤ s1.current_temp then
      tick_critical s1
    else if TEMP_THRESHOLD_WARNING ≤ s1.current_temp then
      { s1 with current_severity := Severity.warning,
                is_countdown_active := false,
                countdown_val := COUNTDOWN_START_SECONDS }
    else
      { s1 with current_severity := Severity.normal,
                is_countdown_active := false,
                countdown_val := COUNTDOWN_START_SECONDS }

/-! ## Telemetry parsing (`ScadaDashboard.read_serial_data`, hardware branch)

The hardware branch decodes the buffered bytes, splits the stripped text on
newlines, and walks the lines from the most recent backwards: empty lines are
skipped, a line containing `"ERROR"` surfaces a sensor-fault message and is
skipped, and a line with at least 3 comma-separated fields is parsed with
Python `float`/`int` — `self.current_temp` is assigned before the flag is
parsed, and a `ValueError` from either conversion moves on to the next older
line; a full parse `break`s out of the loop. -/

/-- Value of a decimal digit character. -/
def digitVal (c : Char) : ℕ := c.toNat - 48

/-- The natural number denoted by a digit string (most significant first). -/
def natOfDigits (l : List Char) : ℕ := l.foldl (fun a c => 10 * a + digitVal c) 0

/-- Powers of ten, for decimal fraction denominators. -/
def pow10 : ℕ → ℕ
  | 0 => 1
  | n + 1 => 10 * pow10 n

/-- Python `float()` on an unsigned plain decimal literal (`"25"`, `"25.50"`,
`"25."`, `".5"`); anything else — in particular the malformed fields the
protocol can carry — yields `none` (Python raises `ValueError`).  Exotic float
syntax (exponents, `inf`/`nan`, underscores) never occurs on this wire
protocol and is out of the model. -/
def parseUnsignedFloatChars (l : List Char) : Option ℚ :=
  let ip := l.takeWhile (fun c => c != '.')
  match l.dropWhile (fun c => c != '.') with
  | [] =>
      if !ip.isEmpty && ip.all Char.isDigit
      then some (mkRat (Int.ofNat (natOfDigits ip)) 1) else none
  | _ :: fp =>
      if (!ip.isEmpty || !fp.isEmpty) && ip.all Char.isDigit
          && fp.all Char.isDigit then
        some (mkRat
          (Int.ofNat (natOfDigits ip * pow10 fp.length + natOfDigits fp))
          (pow10 fp.length))
      else none

/-- Python `float()` on an optionally signed plain decimal literal. -/
def parseFloatChars (l : List Char) : Option ℚ :=
  match l with
  | '-' :: rest => (parseUnsignedFloatChars rest).map (fun q => -q)
  | '+' :: rest => parseUnsignedFloatChars rest
  | _ => parseUnsignedFloatChars l

/-- Python `int()` on an optionally signed digit string; `none` on anything
else (Python raises `ValueError`). -/
def parseIntChars (l : List Char) : Option ℤ :=
  match l with
  | '-' :: rest =>
      if !rest.isEmpty && rest.all Char.isDigit
      then some (-(natOfDigits rest : ℤ)) else none
  | '+' :: rest =>
      if !rest.isEmpty && rest.all Char.isDigit
      then some (natOfDigits rest : ℤ) else none
  | _ =>
      if !l.isEmpty && l.all Char.isDigit
      then some (natOfDigits l : ℤ) else none

/-- Python `str.split(sep)` for a one-character separator, on char lists:
`"a,,b"` ↦ `["a","","b"]`, `""` ↦ `[""]`. -/
def splitOnChar (sep : Char) : List Char → List (List Char)
  | [] => [[]]
  | c :: rest =>
    if c = sep then [] :: splitOnChar sep rest
    else
      match splitOnChar sep rest with
      | [] => [[c]]
      | g :: gs => (c :: g) :: gs

/-- Python whitespace as stripped by `str.strip()`. -/
def isSpaceChar (c : Char) : Bool :=
  c = ' ' || c = '\t' || c = '\n' || c = '\r' || c = '\x0b' || c = '\x0c'

/-- Python `str.strip()` on char lists. -/
def trimChars (l : List Char) : List Char :=
  ((l.dropWhile isSpaceChar).reverse.dropWhile isSpaceChar).reverse

/-- Python's substring test `pat in s` on char lists. -/
def containsSub : List Char → List Char → Bool
  | [], pat => pat.isEmpty
  | s@(_ :: t), pat => pat.isPrefixOf s || containsSub t pat

/-- The fault sentinel `"ERROR"` checked by `if "ERROR" in line`. -/
def ERROR_TOKEN : List Char := ['E', 'R', 'R', 'O', 'R']

/-- One parsed telemetry sample: the temperature from field 1 and the running
flag from field 2 (`runningFlag = (status_flag != 0)`; the code stores
`is_hard_paused = (status_flag == 0)`).  Field 0, the sensor id, is never read
by the code. -/
structure Reading where
  temperature : ℚ
  runningFlag : Bool
deriving DecidableEq, Repr

/-- The fields of `ScadaDashboard` touched by the parsing loop:
`current_temp`, `is_hard_paused`, and whether the sensor-fault message was
surfaced on the operator message label. -/
structure ReadState where
  current_temp : ℚ
  is_hard_paused : Bool
  fault_surfaced : Bool
deriving DecidableEq, Repr

/-- How one (raw, unstripped) line fares in the parsing loop's branch
structure: empty after strip / `"ERROR"` sentinel / no usable `id,temp,flag`
parse / `float(parts[1])` succeeded but `int(parts[2])` raised — leaving the
already-performed `self.current_temp` assignment behind / full parse. -/
inductive LineParse
  | empty
  | fault
  | noParse
  | tempOnly (t : ℚ)
  | full (t : ℚ) (f : ℤ)
deriving DecidableEq, Repr

/-- The branch taken by one iteration of the parsing loop on a raw line,
following the source order: `strip`, empty check, `"ERROR" in line`,
`"," in line`, `len(parts) >= 3`, `float(parts[1])`, `int(parts[2])`. -/
def classify_line (raw : List Char) : LineParse :=
  let line := trimChars raw
  if line.isEmpty then LineParse.empty
  else if containsSub line ERROR_TOKEN then LineParse.fault
  else if line.contains ',' then
    match splitOnChar ',' line with
    | _ :: p1 :: p2 :: _ =>
      match parseFloatChars p1 with
      | none => LineParse.noParse
      | some t =>
        match parseIntChars p2 with
        | none => LineParse.tempOnly t
        | some f => LineParse.full t f
    | _ => LineParse.noParse
  else LineParse.noParse

/-- Outcome of one loop iteration: `cont` keeps scanning older lines, `done`
is the `break` after a full parse, carrying the produced `Reading`. -/
inductive LineResult
  | cont (st : ReadState)
  | done (st : ReadState) (r : Reading)
deriving DecidableEq, Repr

/-- One iteration of the parsing loop, with its state effects: the fault
branch sets the sensor-error message; a `float` success mutates
`current_temp` even if the subsequent `int` fails; a full parse also sets
`is_hard_paused` and breaks. -/
def process_line (st : ReadState) (raw : List Char) : LineResult :=
  match classify_line raw with
  | LineParse.empty => LineResult.cont st
  | LineParse.fault => LineResult.cont { st with fault_surfaced := true }
  | LineParse.noParse => LineResult.cont st
  | LineParse.tempOnly t => LineResult.cont { st with current_temp := t }
  | LineParse.full t f =>
      LineResult.done
        { st with current_temp := t, is_hard_paused := (f == 0) }
        { temperature := t, runningFlag := (f != 0) }

/-- The `Reading` a single line would produce on a full parse, `none`
otherwise. -/
def line_reading (raw : List Char) : Option Reading :=
  match classify_line raw with
  | LineParse.full t f => some { temperature := t, runningFlag := (f != 0) }
  | _ => none

/-- The parsing loop over the lines, most recent first (the source iterates
`reversed(lines)`), stopping at the first full parse. -/
def process_lines (st : ReadState) : List (List Char) → ReadState × Option Reading
  | [] => (st, none)
  | l :: rest =>
    match process_line st l with
    | LineResult.cont st' => process_lines st' rest
    | LineResult.done st' r => (st', some r)

/-- Embedding of the `ScadaDashboard.read_serial_data` hardware branch on one received burst:
`raw_data.strip().split('\n')` walked in reverse. -/
def read_serial_data (st : ReadState) (burst : List Char) :
    ReadState × Option Reading :=
  process_lines st (splitOnChar '\n' (trimChars burst)).reverse

/-! ## Transport selection (`ScadaDashboard.setup_serial`) -/

/-- Which transport `self.serial_connection` ends up holding: the live
`serial.Serial` or the simulated `MockSerial`. -/
inductive ConnKind
  | live
  | mock
deriving DecidableEq, Repr

/-- Embedding of `ScadaDashboard.setup_serial`, as a function of the configuration flag
`USE_SIMULATION` and of whether `serial.Serial(PORT, ...)` opens without
raising: the chosen transport and the messages passed to `log_event`
(with `PORT = "COM10"` interpolated). -/
def setup_serial (use_simulation : Bool) (live_open_ok : Bool) :
    ConnKind × List String :=
  if use_simulation = false then
    if live_open_ok then
      (ConnKind.live, ["SYS: Port Open (COM10)"])
    else
      (ConnKind.mock, ["ERR: Port Fail (COM10)", "SYS: Switching to Sim (Fail)"])
  else
    (ConnKind.mock, ["SYS: Sim Mode Active"])

/-- The per-session fields relevant to the fallback policy: the transport
chosen at start-up and the parsing state.  `setup_serial` runs once from
`start_system_logic`; no later code path reassigns `self.serial_connection`. -/
structure Session where
  conn : ConnKind
  rd : ReadState
deriving DecidableEq, Repr

/-- One 10 Hz poll (`read_serial_data`): updates the parsing state from the
received burst and never touches the transport choice. -/
def session_poll (sess : Session) (burst : List Char) : Session :=
  { sess with rd := (read_serial_data sess.rd burst).1 }

/-! ## The operations reaching the safety state (`C7`'s step machine) -/

/-- The operations that can mutate `ScadaDashboard`'s safety state after
start-up: the 1 Hz logic tick, the operator E-stop toggle, and a 10 Hz
serial poll delivering a burst. -/
inductive Step
  | tick
  | estop (b : Bool)
  | poll (burst : List Char)

/-- Applying one operation to the dashboard state.  A poll runs
`read_serial_data` over `current_temp`/`is_hard_paused` (the fault message
label is presentation). -/
def apply_step (s : ScadaState) : Step → ScadaState
  | Step.tick => update_seconds_logic s
  | Step.estop b => handle_estop_toggle s b
  | Step.poll burst =>
      let rs := (read_serial_data ⟨s.current_temp, s.is_hard_paused, false⟩ burst).1
      { s with current_temp := rs.current_temp,
               is_hard_paused := rs.is_hard_paused }

/-- The state variables as initialised in `ScadaDashboard.__init__`. -/
def init_state : ScadaState :=
  { current_temp := 0, is_estopped := false, is_hard_paused := false,
    runtime_seconds := 0, countdown_val := COUNTDOWN_START_SECONDS,
    is_countdown_active := false, current_severity := Severity.normal,
    log := [] }

/-- The state after a sequence of operations from start-up. -/
def run_steps (steps : List Step) : ScadaState :=
  steps.foldl apply_step init_state

/-! ## Concrete states and bursts used to instantiate the theorems -/

/-- A state in emergency (hardware interlock) with a countdown mid-flight. -/
def c2_state : ScadaState :=
  { current_temp := 60, is_estopped := false, is_hard_paused := true,
    runtime_seconds := 3, countdown_val := 7, is_countdown_active := true,
    current_severity := Severity.danger, log := [] }

/-- A non-emergency state in the warning band. -/
def c3_state : ScadaState :=
  { current_temp := 45, is_estopped := false, is_hard_paused := false,
    runtime_seconds := 7, countdown_val := 20, is_countdown_active := false,
    current_severity := Severity.normal, log := [] }

/-- A soft-E-stopped state with critical temperature. -/
def c10_state : ScadaState :=
  { current_temp := 60, is_estopped := true, is_hard_paused := false,
    runtime_seconds := 9, countdown_val := 3, is_countdown_active := true,
    current_severity := Severity.critical, log := [] }

/-- A fresh state holding `temperature = 52 ≥ CRITICAL`, no emergency. -/
def c1_state : ScadaState :=
  { current_temp := 52, is_estopped := false, is_hard_paused := false,
    runtime_seconds := 0, countdown_val := 20, is_countdown_active := false,
    current_severity := Severity.normal, log := [] }

/-- A previously held reading: temperature 10, device running, no fault. -/
def c4_state : ReadState := ⟨10, false, false⟩

/-- The state reached after `k` logic ticks of a critical-temperature run
started from `s` (for `1 ≤ k ≤ 19`): countdown active at `20 - k`, runtime
advanced by `k`, severity derived from the remaining value. -/
def countdown_run_state (s : ScadaState) (k : ℕ) : ScadaState :=
  { s with runtime_seconds := s.runtime_seconds + k,
           is_countdown_active := true,
           countdown_val := 20 - (k : ℤ),
           current_severity :=
             if 20 - (k : ℤ) ≤ 5 then Severity.critical else Severity.danger }

/-- A full log at capacity. -/
def c8_log : List String := List.replicate 50 "x"

/-- A burst whose only line has a numeric temperature but a non-numeric
flag field. -/
def c4_burst : List Char := "0,33.5,x".data

/-- A burst with two parseable lines followed by a most-recent `ERROR`
line. -/
def c5_bad_burst : List Char := "0,10.0,1\n0,20.0,1\nERROR".data

/-- The spec's two-line example burst. -/
def c5_burst : List Char := "0,25.50,1\n0,26.10,1".data

/-- A line carrying the fault sentinel. -/
def c6_line : List Char := "SENSOR ERROR".data

/-- A parsing state holding temperature 25, device running, no fault. -/
def c6_state : ReadState := ⟨25, false, false⟩

end MiniScada

namespace MiniScada

/-! ## Helper lemmas about one logic tick -/

/-- Entering the critical band with the countdown inactive: it is activated,
reset to `COUNTDOWN_START_SECONDS` and immediately decremented to 19, and the
severity becomes `danger`. -/
theorem tick_critical_inactive (s : ScadaState)
    (hA : s.is_countdown_active = false) :
    tick_critical s =
      { s with is_countdown_active := true,
               countdown_val := COUNTDOWN_START_SECONDS - 1,
               current_severity := Severity.danger } := by
  obtain ⟨temp, est, hard, rt, cv, act, sev, lg⟩ := s
  simp only at hA
  subst hA
  norm_num [tick_critical, COUNTDOWN_START_SECONDS]

/-- A critical tick with an active countdown not about to expire decrements
it and derives the severity from the new value. -/
theorem tick_critical_active (s : ScadaState)
    (hA : s.is_countdown_active = true) (hv : 2 ≤ s.countdown_val) :
    tick_critical s =
      { s with countdown_val := s.countdown_val - 1,
               current_severity :=
                 if s.countdown_val - 1 ≤ 5 then Severity.critical
                 else Severity.danger } := by
  obtain ⟨temp, est, hard, rt, cv, act, sev, lg⟩ := s
  simp only at hA hv
  subst hA
  unfold tick_critical
  simp only [if_true]
  rw [if_pos (show (0 : ℤ) < cv by omega)]
  rw [if_neg (show ¬ ((cv - 1 : ℤ) ≤ 0) by omega)]
  split_ifs <;> rfl

/-- A critical tick with the countdown at 1 expires it: the value reaches 0,
the severity becomes `critical`, the expiry alarm is logged, and the
auto-E-stop is applied (setting `is_estopped` and logging the halt). -/
theorem tick_critical_expire (s : ScadaState)
    (hA : s.is_countdown_active = true) (hv : s.countdown_val = 1) :
    tick_critical s =
      { s with countdown_val := 0,
               current_severity := Severity.critical,
               is_estopped := true,
               log := log_event
                 (log_event s.log "ALARM: TIMER EXPIRED - INITIATING AUTO E-STOP")
                 "ALARM: E-STOP HALTED" } := by
  obtain ⟨temp, est, hard, rt, cv, act, sev, lg⟩ := s
  simp only at hA hv
  subst hA
  subst hv
  unfold tick_critical
  norm_num [handle_estop_toggle]

/-- On an emergency tick (`is_estopped OR is_hard_paused`) the early return
leaves the state unchanged. -/
theorem tick_frozen_of_emergency (s : ScadaState)
    (h : (s.is_estopped || s.is_hard_paused) = true) :
    update_seconds_logic s = s := by
  unfold update_seconds_logic
  rw [h]
  rfl

/-- On a non-emergency tick the runtime increments and the critical arm runs
when the temperature is at or above the critical threshold. -/
theorem tick_not_emergency_critical (s : ScadaState)
    (hE : s.is_estopped = false) (hH : s.is_hard_paused = false)
    (hT : TEMP_THRESHOLD_CRITICAL ≤ s.current_temp) :
    update_seconds_logic s =
      tick_critical { s with runtime_seconds := s.runtime_seconds + 1 } := by
  unfold update_seconds_logic
  rw [hE, hH]
  simp only [Bool.or_self, Bool.false_eq_true, if_false]
  rw [if_pos hT]

/-- The appended message is a member of the log after `log_event`. -/
theorem mem_log_event_self (lg : List String) (m : String) :
    m ∈ log_event lg m := by
  unfold log_event
  simp

/-- A message at the tail of the log survives one more `log_event`: at most
one (oldest) entry is evicted per append, and only at length
`MAX_LOG_ENTRIES ≥ 2`. -/
theorem mem_log_event_snoc (P : List String) (m m' : String) :
    m ∈ log_event (P ++ [m]) m' := by
  unfold log_event
  split_ifs with h
  · rw [List.drop_append_of_le_length (by
      simp only [List.length_append, List.length_singleton] at h
      unfold MAX_LOG_ENTRIES at h
      omega)]
    simp
  · simp

/-- The message appended by the inner of two consecutive `log_event`s is
still present after the outer one. -/
theorem mem_log_event_again (lg : List String) (m m' : String) :
    m ∈ log_event (log_event lg m) m' :=
  mem_log_event_snoc (if MAX_LOG_ENTRIES ≤ lg.length then lg.drop 1 else lg) m m'

/-- Holding a critical temperature with no emergency from a fresh (inactive)
countdown: after `k ∈ [1, 19]` ticks the state is `countdown_run_state s k`. -/
theorem critical_run (s : ScadaState) (hE : s.is_estopped = false)
    (hH : s.is_hard_paused = false) (hA : s.is_countdown_active = false)
    (hT : TEMP_THRESHOLD_CRITICAL ≤ s.current_temp) :
    ∀ k : ℕ, 1 ≤ k → k ≤ 19 →
      update_seconds_logic^[k] s = countdown_run_state s k := by
  intro k hk1 hk19
  induction k with
  | zero => omega
  | succ n ih =>
    rcases Nat.eq_or_lt_of_le hk1 with h1 | h1
    · obtain rfl : n = 0 := by omega
      rw [Function.iterate_one]
      rw [tick_not_emergency_critical s hE hH hT]
      rw [tick_critical_inactive { s with
            runtime_seconds := s.runtime_seconds + 1 } hA]
      unfold countdown_run_state COUNTDOWN_START_SECONDS
      norm_num
    · have hn1 : 1 ≤ n := by omega
      rw [Function.iterate_succ_apply']
      rw [ih hn1 (by omega)]
      rw [tick_not_emergency_critical (countdown_run_state s n) hE hH hT]
      rw [tick_critical_active { countdown_run_state s n with
            runtime_seconds := (countdown_run_state s n).runtime_seconds + 1 }
          rfl (show (2 : ℤ) ≤ 20 - (n : ℤ) by omega)]
      unfold countdown_run_state
      have hc : ((n + 1 : ℕ) : ℤ) = (n : ℤ) + 1 := by push_cast; ring
      rw [hc]
      have hs : (20 : ℤ) - ((n : ℤ) + 1) = 20 - (n : ℤ) - 1 := by ring
      rw [hs]
      rfl

/-! ## C1 — the critical countdown run -/

/-- C1: from a non-emergency state with a fresh countdown and temperature at
or above `CRITICAL`, over a run of logic ticks `countdownRemaining` is driven
from `COUNTDOWN_START` down to 0 (`20 - k` after the `k`-th tick), the
severity is `danger` while the remaining value exceeds 5 and `critical` while
it is in `[1, 5]`, and the 20th tick (where it reaches 0) sets
`softEstop = true` and appends the auto-E-stop alarm to the log. -/
theorem C1_critical_countdown (s : ScadaState) (hE : s.is_estopped = false)
    (hH : s.is_hard_paused = false) (hA : s.is_countdown_active = false)
    (hT : TEMP_THRESHOLD_CRITICAL ≤ s.current_temp) :
    (∀ k : ℕ, 1 ≤ k → k ≤ 20 →
      (update_seconds_logic^[k] s).countdown_val = 20 - (k : ℤ)) ∧
    (∀ k : ℕ, 1 ≤ k → k ≤ 20 →
      5 < (update_seconds_logic^[k] s).countdown_val →
      (update_seconds_logic^[k] s).current_severity = Severity.danger) ∧
    (∀ k : ℕ, 1 ≤ k → k ≤ 20 →
      1 ≤ (update_seconds_logic^[k] s).countdown_val →
      (update_seconds_logic^[k] s).countdown_val ≤ 5 →
      (update_seconds_logic^[k] s).current_severity = Severity.critical) ∧
    (update_seconds_logic^[20] s).countdown_val = 0 ∧
    (update_seconds_logic^[20] s).is_estopped = true ∧
    "ALARM: TIMER EXPIRED - INITIATING AUTO E-STOP"
      ∈ (update_seconds_logic^[20] s).log := by
  have h19 := critical_run s hE hH hA hT 19 (by omega) (by omega)
  have h20 : update_seconds_logic^[20] s =
      { s with runtime_seconds := s.runtime_seconds + 20,
               is_countdown_active := true,
               countdown_val := 0,
               current_severity := Severity.critical,
               is_estopped := true,
               log := log_event
                 (log_event s.log "ALARM: TIMER EXPIRED - INITIATING AUTO E-STOP")
                 "ALARM: E-STOP HALTED" } := by
    have hsplit : (20 : ℕ) = 19 + 1 := rfl
    rw [hsplit, Function.iterate_succ_apply', h19]
    rw [tick_not_emergency_critical (countdown_run_state s 19) hE hH hT]
    rw [tick_critical_expire { countdown_run_state s 19 with
          runtime_seconds := (countdown_run_state s 19).runtime_seconds + 1 }
        rfl (show (20 : ℤ) - ((19 : ℕ) : ℤ) = 1 by norm_num)]
    unfold countdown_run_state
    norm_num
  refine ⟨?_, ?_, ?_, ?_, ?_, ?_⟩
  · intro k hk1 hk20
    rcases Nat.lt_or_ge k 20 with hlt | hge
    · rw [critical_run s hE hH hA hT k hk1 (by omega)]
      rfl
    · obtain rfl : k = 20 := by omega
      rw [h20]
      norm_num
  · intro k hk1 hk20 hgt
    rcases Nat.lt_or_ge k 20 with hlt | hge
    · have hrun := critical_run s hE hH hA hT k hk1 (by omega)
      rw [hrun] at hgt ⊢
      have hv : (5 : ℤ) < 20 - (k : ℤ) := hgt
      show (if 20 - (k : ℤ) ≤ 5 then Severity.critical else Severity.danger)
        = Severity.danger
      rw [if_neg (by omega)]
    · obtain rfl : k = 20 := by omega
      rw [h20] at hgt
      have hv : (5 : ℤ) < 0 := hgt
      omega
  · intro k hk1 hk20 hge1 hle5
    rcases Nat.lt_or_ge k 20 with hlt | hge
    · have hrun := critical_run s hE hH hA hT k hk1 (by omega)
      rw [hrun] at hge1 hle5 ⊢
      have hv : 20 - (k : ℤ) ≤ 5 := hle5
      show (if 20 - (k : ℤ) ≤ 5 then Severity.critical else Severity.danger)
        = Severity.critical
      rw [if_pos hv]
    · obtain rfl : k = 20 := by omega
      rw [h20] at hge1
      have hv : (1 : ℤ) ≤ 0 := hge1
      omega
  · rw [h20]
  · rw [h20]
  · rw [h20]
    exact mem_log_event_again s.log _ _

/-- Witness for `C1_critical_countdown` on the concrete scenario
(`temperature = 52` held with no emergency). -/
theorem C1_critical_countdown_witness :
    (update_seconds_logic^[5] c1_state).countdown_val = 15 ∧
    (update_seconds_logic^[20] c1_state).countdown_val = 0 ∧
    (update_seconds_logic^[20] c1_state).is_estopped = true ∧
    "ALARM: TIMER EXPIRED - INITIATING AUTO E-STOP"
      ∈ (update_seconds_logic^[20] c1_state).log := by
  have h := C1_critical_countdown c1_state rfl rfl rfl (by decide)
  refine ⟨?_, h.2.2.2.1, h.2.2.2.2.1, h.2.2.2.2.2⟩
  rw [h.1 5 (by decide) (by decide)]
  decide

/-! ## C2 — the emergency tick -/

/-- C2 (as written) is false: on an emergency tick the code returns early and
leaves `countdownRemaining`/`countdownActive` frozen, not reset.  Concretely,
from an emergency state (`hardPaused = true`) with an active countdown at 7,
the tick leaves `countdownActive = true` and `countdownRemaining = 7 ≠
COUNTDOWN_START`. -/
theorem C2_counterexample :
    (c2_state.is_estopped || c2_state.is_hard_paused) = true ∧
    (update_seconds_logic c2_state).is_countdown_active ≠ false ∧
    (update_seconds_logic c2_state).countdown_val ≠ COUNTDOWN_START_SECONDS := by
  decide

/-- C2 (amended): on every logic tick in which emergency holds
(`softEstop OR hardPaused`), the machine leaves the whole state unchanged —
`runtimeSeconds` frozen, `countdownActive`/`countdownRemaining` kept at their
previous values — and performs none of the countdown/runtime evaluation. -/
theorem C2_emergency_tick_frozen (s : ScadaState)
    (h : (s.is_estopped || s.is_hard_paused) = true) :
    update_seconds_logic s = s :=
  tick_frozen_of_emergency s h

/-- Witness for `C2_emergency_tick_frozen` on a concrete emergency state. -/
theorem C2_emergency_tick_frozen_witness :
    update_seconds_logic c2_state = c2_state :=
  C2_emergency_tick_frozen c2_state (by decide)

/-! ## C3 — the sub-critical bands -/

/-- C3: on a non-emergency tick, temperature below the warning threshold
yields severity `normal`, a temperature in `[warning, critical)` yields
severity `warning`, and in both bands the countdown is deactivated and reset
to `COUNTDOWN_START_SECONDS`. -/
theorem C3_subcritical_bands (s : ScadaState)
    (hE : s.is_estopped = false) (hH : s.is_hard_paused = false) :
    (s.current_temp < TEMP_THRESHOLD_WARNING →
      (update_seconds_logic s).current_severity = Severity.normal) ∧
    (TEMP_THRESHOLD_WARNING ≤ s.current_temp →
      s.current_temp < TEMP_THRESHOLD_CRITICAL →
      (update_seconds_logic s).current_severity = Severity.warning) ∧
    (s.current_temp < TEMP_THRESHOLD_CRITICAL →
      (update_seconds_logic s).is_countdown_active = false ∧
      (update_seconds_logic s).countdown_val = COUNTDOWN_START_SECONDS) := by
  obtain ⟨temp, est, hard, rt, cv, act, sev, lg⟩ := s
  simp only at hE hH
  subst hE
  subst hH
  unfold update_seconds_logic
  simp only [Bool.or_self, Bool.false_eq_true, if_false]
  refine ⟨?_, ?_, ?_⟩
  · intro h1
    rw [if_neg (show ¬ TEMP_THRESHOLD_CRITICAL ≤ temp by
          unfold TEMP_THRESHOLD_CRITICAL
          unfold TEMP_THRESHOLD_WARNING at h1
          intro hc
          linarith)]
    rw [if_neg (show ¬ TEMP_THRESHOLD_WARNING ≤ temp by exact not_le.mpr h1)]
  · intro h1 h2
    rw [if_neg (not_le.mpr h2), if_pos h1]
  · intro h1
    rw [if_neg (not_le.mpr h1)]
    split_ifs <;> exact ⟨rfl, rfl⟩

/-- Witness for `C3_subcritical_bands` at `temperature = 45`. -/
theorem C3_subcritical_bands_witness :
    (update_seconds_logic c3_state).current_severity = Severity.warning ∧
    (update_seconds_logic c3_state).is_countdown_active = false ∧
    (update_seconds_logic c3_state).countdown_val = COUNTDOWN_START_SECONDS :=
  ⟨(C3_subcritical_bands c3_state rfl rfl).2.1 (by decide) (by decide),
   (C3_subcritical_bands c3_state rfl rfl).2.2 (by decide)⟩

/-! ## C8 — the bounded FIFO event log -/

/-- C8: appending to a log holding at most `MAX_LOG_ENTRIES` entries keeps it
at most `MAX_LOG_ENTRIES`, and appending at capacity evicts exactly the entry
that was appended first (the head). -/
theorem C8_log_bounded_fifo (lg : List String) (m : String) :
    (lg.length ≤ MAX_LOG_ENTRIES → (log_event lg m).length ≤ MAX_LOG_ENTRIES) ∧
    (lg.length = MAX_LOG_ENTRIES → log_event lg m = lg.tail ++ [m]) := by
  unfold log_event MAX_LOG_ENTRIES
  constructor
  · intro h
    split_ifs with h50
    · simp only [List.length_append, List.length_drop, List.length_singleton]
      omega
    · simp only [List.length_append, List.length_singleton]
      omega
  · intro h
    rw [if_pos (by omega)]
    rw [List.drop_one]

/-- Witness for `C8_log_bounded_fifo` on a log at capacity. -/
theorem C8_log_bounded_fifo_witness :
    (log_event c8_log "y").length ≤ MAX_LOG_ENTRIES ∧
    log_event c8_log "y" = c8_log.tail ++ ["y"] :=
  ⟨(C8_log_bounded_fifo c8_log "y").1 (by decide),
   (C8_log_bounded_fifo c8_log "y").2 (by decide)⟩

/-! ## C10 — clearing the soft E-stop -/

/-- C10: `handle_estop_toggle(false)` immediately forces
`current_severity = normal`, deactivates the countdown and resets it to
`COUNTDOWN_START_SECONDS`, for every state — in particular regardless of the
(unchanged) temperature, even at or above the critical threshold; the
severity is only re-derived from the temperature by the next logic tick
(which yields `danger` when the temperature is still critical). -/
theorem C10_estop_clear (s : ScadaState) :
    (handle_estop_toggle s false).current_severity = Severity.normal ∧
    (handle_estop_toggle s false).is_countdown_active = false ∧
    (handle_estop_toggle s false).countdown_val = COUNTDOWN_START_SECONDS ∧
    (handle_estop_toggle s false).current_temp = s.current_temp ∧
    (s.is_hard_paused = false → TEMP_THRESHOLD_CRITICAL ≤ s.current_temp →
      (update_seconds_logic (handle_estop_toggle s false)).current_severity
        = Severity.danger) := by
  refine ⟨rfl, rfl, rfl, rfl, ?_⟩
  intro hH hT
  rw [tick_not_emergency_critical (handle_estop_toggle s false) rfl hH hT]
  rw [tick_critical_inactive _ rfl]

/-- Witness for `C10_estop_clear` on a soft-E-stopped state at
`temperature = 60 ≥ CRITICAL`. -/
theorem C10_estop_clear_witness :
    (handle_estop_toggle c10_state false).current_severity = Severity.normal ∧
    (handle_estop_toggle c10_state false).countdown_val
      = COUNTDOWN_START_SECONDS ∧
    (update_seconds_logic (handle_estop_toggle c10_state false)).current_severity
      = Severity.danger :=
  ⟨(C10_estop_clear c10_state).1, (C10_estop_clear c10_state).2.2.1,
   (C10_estop_clear c10_state).2.2.2.2 rfl (by decide)⟩

/-! ## C4 — malformed lines and the flag-parse slip -/

/-- C4 is right about the intent but the code has a slip: on the burst
`"0,33.5,x"` the line is discarded (`int("x")` raises, no `Reading` is
produced), yet `self.current_temp` was already assigned `33.5` before the
flag conversion raised, so the previously held temperature 10 is *not*
retained.  (`mkRat 67 2 = 33.5`.) -/
theorem C4_flag_parse_mutates_temp :
    line_reading c4_burst = none ∧
    (read_serial_data c4_state c4_burst).2 = none ∧
    c4_state.current_temp = 10 ∧
    (read_serial_data c4_state c4_burst).1.current_temp = mkRat 67 2 ∧
    (read_serial_data c4_state c4_burst).1.is_hard_paused
      = c4_state.is_hard_paused := by
  decide

/-! ## C6 — the `ERROR` fault sentinel -/

/-- A line containing the `ERROR` sentinel classifies as a fault. -/
theorem classify_line_fault (raw : List Char)
    (h : containsSub (trimChars raw) ERROR_TOKEN = true) :
    classify_line raw = LineParse.fault := by
  have hne : (trimChars raw).isEmpty = false := by
    cases htrim : trimChars raw with
    | nil =>
        rw [htrim] at h
        exact absurd h (by decide)
    | cons a t => rfl
  unfold classify_line
  simp [hne, h]

/-- C6: a line containing the `ERROR` sentinel is handled as a fault — the
sensor-error message is surfaced, no `Reading` is produced from the line,
and the fault handling leaves the stored temperature (and interlock flag)
unchanged while iteration continues. -/
theorem C6_fault_line (st : ReadState) (raw : List Char)
    (h : containsSub (trimChars raw) ERROR_TOKEN = true) :
    process_line st raw = LineResult.cont { st with fault_surfaced := true } ∧
    line_reading raw = none ∧
    ({ st with fault_surfaced := true } : ReadState).current_temp
      = st.current_temp ∧
    ({ st with fault_surfaced := true } : ReadState).is_hard_paused
      = st.is_hard_paused := by
  refine ⟨?_, ?_, rfl, rfl⟩
  · unfold process_line
    rw [classify_line_fault raw h]
  · unfold line_reading
    rw [classify_line_fault raw h]

/-- Witness for `C6_fault_line` on the line `"SENSOR ERROR"`. -/
theorem C6_fault_line_witness :
    process_line c6_state c6_line
      = LineResult.cont { c6_state with fault_surfaced := true } ∧
    line_reading c6_line = none :=
  ⟨(C6_fault_line c6_state c6_line (by decide)).1,
   (C6_fault_line c6_state c6_line (by decide)).2.1⟩

/-! ## C5 — most recent line wins -/

/-- A line that yields a `Reading` makes `process_line` break with that
reading, committing its temperature and interlock flag. -/
theorem process_line_of_reading (st : ReadState) (l : List Char) (r : Reading)
    (h : line_reading l = some r) :
    process_line st l = LineResult.done
      { st with current_temp := r.temperature,
                is_hard_paused := !r.runningFlag } r := by
  unfold line_reading at h
  unfold process_line
  cases hc : classify_line l with
  | empty => rw [hc] at h; exact absurd h (by simp)
  | fault => rw [hc] at h; exact absurd h (by simp)
  | noParse => rw [hc] at h; exact absurd h (by simp)
  | tempOnly t => rw [hc] at h; exact absurd h (by simp)
  | full t f =>
      rw [hc] at h
      simp only [Option.some.injEq] at h
      subst h
      simp [bne]

/-- A line that yields no `Reading` makes `process_line` continue (possibly
with the temperature or fault message updated). -/
theorem process_line_no_reading (st : ReadState) (l : List Char)
    (h : line_reading l = none) :
    ∃ st', process_line st l = LineResult.cont st' := by
  unfold line_reading at h
  unfold process_line
  cases hc : classify_line l with
  | empty => exact ⟨st, rfl⟩
  | fault => exact ⟨_, rfl⟩
  | noParse => exact ⟨st, rfl⟩
  | tempOnly t => exact ⟨_, rfl⟩
  | full t f => rw [hc] at h; exact absurd h (by simp)

/-- The loop commits exactly the first (most recent) line that parses. -/
theorem process_lines_findSome (lines : List (List Char)) (st : ReadState)
    (r : Reading) (h : lines.findSome? line_reading = some r) :
    (process_lines st lines).2 = some r ∧
    (process_lines st lines).1.current_temp = r.temperature ∧
    (process_lines st lines).1.is_hard_paused = !r.runningFlag := by
  induction lines generalizing st with
  | nil => simp [List.findSome?] at h
  | cons l rest ih =>
      rw [List.findSome?_cons] at h
      cases hl : line_reading l with
      | some r' =>
          rw [hl] at h
          simp only [Option.some.injEq] at h
          obtain rfl : r' = r := h
          unfold process_lines
          rw [process_line_of_reading st l r' hl]
          exact ⟨rfl, rfl, rfl⟩
      | none =>
          rw [hl] at h
          unfold process_lines
          obtain ⟨st', hst'⟩ := process_line_no_reading st l hl
          rw [hst']
          exact ih st' h

/-- C5 is almost right: when the most recent *non-empty* line does not parse
(e.g. it is the `ERROR` sentinel) but older lines do, the produced `Reading`
does not come from the most recent non-empty line.  On
`"0,10.0,1\n0,20.0,1\nERROR"` — a burst with two parseable lines — the most
recent non-empty line is `"ERROR"`, which yields no `Reading`, yet the burst
produces `Reading{20, true}` (from the older line `"0,20.0,1"`). -/
theorem C5_counterexample :
    ((splitOnChar '\n' (trimChars c5_bad_burst)).filter
        (fun l => (line_reading l).isSome)).length = 2 ∧
    (splitOnChar '\n' (trimChars c5_bad_burst)).reverse.find?
        (fun l => !(trimChars l).isEmpty) = some "ERROR".data ∧
    line_reading "ERROR".data = none ∧
    (read_serial_data ⟨0, false, false⟩ c5_bad_burst).2
      = some ⟨mkRat 20 1, true⟩ := by
  decide

/-- C5 (amended): for every burst, if any line parses then exactly one
`Reading` is produced, taken from the **most recent parseable line** (earlier
lines are discarded, not queued), and it is committed to the stored
temperature and interlock flag. -/
theorem C5_most_recent_parseable (st : ReadState) (burst : List Char)
    (r : Reading)
    (h : ((splitOnChar '\n' (trimChars burst)).reverse).findSome? line_reading
        = some r) :
    (read_serial_data st burst).2 = some r ∧
    (read_serial_data st burst).1.current_temp = r.temperature ∧
    (read_serial_data st burst).1.is_hard_paused = !r.runningFlag := by
  unfold read_serial_data
  exact process_lines_findSome _ st r h

/-- Witness for `C5_most_recent_parseable` on the spec's example burst
`"0,25.50,1\n0,26.10,1"` (`mkRat 261 10 = 26.10`). -/
theorem C5_most_recent_parseable_witness :
    (read_serial_data ⟨0, false, false⟩ c5_burst).2
      = some ⟨mkRat 261 10, true⟩ ∧
    (read_serial_data ⟨0, false, false⟩ c5_burst).1.current_temp
      = mkRat 261 10 :=
  ⟨(C5_most_recent_parseable ⟨0, false, false⟩ c5_burst ⟨mkRat 261 10, true⟩
      (by decide)).1,
   (C5_most_recent_parseable ⟨0, false, false⟩ c5_burst ⟨mkRat 261 10, true⟩
      (by decide)).2.1⟩

/-! ## C7 — the countdown bound invariant -/

/-- The critical arm `tick_critical` keeps `countdown_val` within `[0, COUNTDOWN_START]`. -/
theorem tick_critical_bounds (s : ScadaState)
    (h0 : 0 ≤ s.countdown_val)
    (h1 : s.countdown_val ≤ COUNTDOWN_START_SECONDS) :
    0 ≤ (tick_critical s).countdown_val ∧
    (tick_critical s).countdown_val ≤ COUNTDOWN_START_SECONDS := by
  obtain ⟨temp, est, hard, rt, cv, act, sev, lg⟩ := s
  simp only at h0 h1
  unfold COUNTDOWN_START_SECONDS at h1 ⊢
  unfold tick_critical COUNTDOWN_START_SECONDS
  cases act with
  | false => norm_num
  | true =>
      simp only [if_true]
      by_cases hv : (0 : ℤ) < cv
      · rw [if_pos hv]
        by_cases he : (cv - 1 : ℤ) ≤ 0
        · rw [if_pos he]
          unfold handle_estop_toggle
          simp only [if_true]
          constructor <;> omega
        · rw [if_neg he]
          split_ifs <;> constructor <;> first | omega | (dsimp only; omega)
      · rw [if_neg hv]
        rw [if_pos (by omega : (cv : ℤ) ≤ 0)]
        unfold handle_estop_toggle
        simp only [if_true]
        constructor <;> omega

/-- Every operation preserves `countdown_val ∈ [0, COUNTDOWN_START]`. -/
theorem countdown_bounds_step (s : ScadaState) (op : Step)
    (h0 : 0 ≤ s.countdown_val)
    (h1 : s.countdown_val ≤ COUNTDOWN_START_SECONDS) :
    0 ≤ (apply_step s op).countdown_val ∧
    (apply_step s op).countdown_val ≤ COUNTDOWN_START_SECONDS := by
  cases op with
  | poll burst => exact ⟨h0, h1⟩
  | estop b =>
      cases b with
      | true => exact ⟨h0, h1⟩
      | false =>
          constructor <;>
            norm_num [apply_step, handle_estop_toggle, COUNTDOWN_START_SECONDS]
  | tick =>
      show 0 ≤ (update_seconds_logic s).countdown_val ∧
        (update_seconds_logic s).countdown_val ≤ COUNTDOWN_START_SECONDS
      cases hB : (s.is_estopped || s.is_hard_paused) with
      | true =>
          rw [tick_frozen_of_emergency s hB]
          exact ⟨h0, h1⟩
      | false =>
          have hE : s.is_estopped = false := by
            rcases Bool.or_eq_false_iff.mp hB with ⟨hE, -⟩
            exact hE
          have hH : s.is_hard_paused = false := by
            rcases Bool.or_eq_false_iff.mp hB with ⟨-, hH⟩
            exact hH
          by_cases hT : TEMP_THRESHOLD_CRITICAL ≤ s.current_temp
          · rw [tick_not_emergency_critical s hE hH hT]
            exact tick_critical_bounds
              { s with runtime_seconds := s.runtime_seconds + 1 } h0 h1
          · unfold update_seconds_logic
            rw [hB]
            simp only [Bool.false_eq_true, if_false]
            rw [if_neg hT]
            split_ifs <;>
              exact ⟨by norm_num [COUNTDOWN_START_SECONDS],
                     by norm_num [COUNTDOWN_START_SECONDS]⟩

/-- The bound holds along every run of operations started from a state
satisfying it. -/
theorem countdown_bounds_foldl (l : List Step) :
    ∀ s : ScadaState, 0 ≤ s.countdown_val →
      s.countdown_val ≤ COUNTDOWN_START_SECONDS →
      0 ≤ (l.foldl apply_step s).countdown_val ∧
      (l.foldl apply_step s).countdown_val ≤ COUNTDOWN_START_SECONDS := by
  induction l with
  | nil => intro s h0 h1; exact ⟨h0, h1⟩
  | cons op rest ih =>
      intro s h0 h1
      rw [List.foldl_cons]
      obtain ⟨g0, g1⟩ := countdown_bounds_step s op h0 h1
      exact ih _ g0 g1

/-- C7: in every state reachable from start-up by logic ticks, E-stop
toggles and serial polls, `countdown_val ∈ [0, COUNTDOWN_START_SECONDS]`,
and every single operation preserves that bound. -/
theorem C7_countdown_bounds :
    (∀ steps : List Step,
      0 ≤ (run_steps steps).countdown_val ∧
      (run_steps steps).countdown_val ≤ COUNTDOWN_START_SECONDS) ∧
    (∀ (s : ScadaState) (op : Step),
      0 ≤ s.countdown_val → s.countdown_val ≤ COUNTDOWN_START_SECONDS →
      0 ≤ (apply_step s op).countdown_val ∧
      (apply_step s op).countdown_val ≤ COUNTDOWN_START_SECONDS) :=
  ⟨fun steps => countdown_bounds_foldl steps init_state (by decide) (by decide),
   fun s op h0 h1 => countdown_bounds_step s op h0 h1⟩

/-- Witness for `C7_countdown_bounds` on a concrete run and a concrete
step. -/
theorem C7_countdown_bounds_witness :
    (0 ≤ (run_steps [Step.tick]).countdown_val ∧
      (run_steps [Step.tick]).countdown_val ≤ COUNTDOWN_START_SECONDS) ∧
    (0 ≤ (apply_step c2_state Step.tick).countdown_val ∧
      (apply_step c2_state Step.tick).countdown_val
        ≤ COUNTDOWN_START_SECONDS) :=
  ⟨C7_countdown_bounds.1 [Step.tick],
   C7_countdown_bounds.2 c2_state Step.tick (by decide) (by decide)⟩

/-! ## C9 — permanent fallback to simulation -/

/-- Polling never changes the transport choice. -/
theorem session_polls_conn (bursts : List (List Char)) :
    ∀ sess : Session, (bursts.foldl session_poll sess).conn = sess.conn := by
  induction bursts with
  | nil => intro sess; rfl
  | cons b rest ih =>
      intro sess
      rw [List.foldl_cons]
      exact ih (session_poll sess b)

/-- C9: when the live `open()` fails at start-up the system ends up on the
simulated transport whatever the simulation-preferred flag says, the failure
and the switch are logged when the live port was attempted, and the choice is
permanent — no sequence of later polls ever changes it (and `setup_serial` is
called only once, from `start_system_logic`). -/
theorem C9_live_open_failure_fallback (sim : Bool) (rd : ReadState)
    (bursts : List (List Char)) :
    (setup_serial sim false).1 = ConnKind.mock ∧
    (sim = false →
      "ERR: Port Fail (COM10)" ∈ (setup_serial sim false).2 ∧
      "SYS: Switching to Sim (Fail)" ∈ (setup_serial sim false).2) ∧
    (bursts.foldl session_poll ⟨(setup_serial sim false).1, rd⟩).conn
      = ConnKind.mock := by
  cases sim with
  | false =>
      refine ⟨rfl, fun _ => ⟨by decide, by decide⟩, ?_⟩
      exact session_polls_conn bursts _
  | true =>
      refine ⟨rfl, fun hcontra => absurd hcontra (by decide), ?_⟩
      exact session_polls_conn bursts _

/-- Witness for `C9_live_open_failure_fallback` with the live port
preferred, a failed open, and one subsequent poll. -/
theorem C9_live_open_failure_fallback_witness :
    (setup_serial false false).1 = ConnKind.mock ∧
    "ERR: Port Fail (COM10)" ∈ (setup_serial false false).2 ∧
    ([c5_burst].foldl session_poll
        ⟨(setup_serial false false).1, c6_state⟩).conn = ConnKind.mock :=
  ⟨(C9_live_open_failure_fallback false c6_state [c5_burst]).1,
   ((C9_live_open_failure_fallback false c6_state [c5_burst]).2.1 rfl).1,
   (C9_live_open_failure_fallback false c6_state [c5_burst]).2.2⟩

end MiniScada
